import Mathlib

/-!
Verification of the InfluxDB v2 HTTP client (`src/influxdb/src/client/client_v2.rs`).

The client is embedded shallowly:

* `ClientV2` mirrors the Rust struct: a base URL, a header map and a
  query-parameter map (the `Arc` wrappers are sharing optimisations and
  carry no semantics for a single call; mutations in the source always
  happen on `clone()`d local copies, which the pure embedding reflects by
  never mutating a client value).
* Header maps and the `HashMap<&str, String>` of query parameters are
  association lists with insert-replaces-existing-key semantics.
* `HeaderValue::from_str` of the `http` crate accepts exactly the strings
  whose UTF-8 bytes are all in `32..=255` except `127`, or a tab; since a
  non-ASCII character encodes to bytes that are all `≥ 0x80` (each of which
  is accepted), acceptance is equivalent to the per-character predicate
  `headerValueFromStrOk`.  Likewise `HeaderValue::to_str` succeeds exactly
  when every byte is visible ASCII or tab, which is the per-character
  predicate `headerValueToStrOk`.
* Network I/O is an oracle: `ping` and `query` take a function from the
  request they build to the transport outcome, and a second oracle stands
  for `reqwest`'s fallible `RequestBuilder::build`.  Each operation returns
  a trace recording the result, the requests actually executed on the
  network, and the client after the call.
* A Rust `panic!`/`unwrap` failure is a dedicated constructor of the result
  type (`NewResult.panicked`, `StrResult.panicked`, `PingResult.panicked`),
  never an `Error` value.
-/

namespace InfluxV2

/-- HTTP methods used by the client. -/
inductive Method where
  | get
  | post
deriving DecidableEq, Repr

/-- The `influxdb::Error` variants reachable from `client_v2.rs`. -/
inductive Error where
  | invalidQueryError (error : String)
  | urlConstructionError (error : String)
  | connectionError (error : String)
  | authorizationError
  | authenticationError
  | deserializationError (error : String)
  | databaseError (error : String)
  | protocolError (error : String)
deriving DecidableEq, Repr

deriving instance DecidableEq for Except

/-- `needle` occurs as a contiguous sublist of the second argument. -/
def subListIn (needle : List Char) : List Char → Bool
  | [] => needle.isEmpty
  | c :: t => needle.isPrefixOf (c :: t) || subListIn needle t

/-- Rust `str::contains` with a string pattern: substring containment. -/
def containsSub (hay needle : String) : Bool :=
  subListIn needle.toList hay.toList

/-- `HeaderMap::insert` / `HashMap::insert`: replace the value when the key
is already present, otherwise add the entry. -/
def insertEntry (m : List (String × String)) (k v : String) :
    List (String × String) :=
  if m.any (fun p => p.1 == k) then
    m.map (fun p => if p.1 == k then (k, v) else p)
  else
    m ++ [(k, v)]

/-- `http::HeaderValue::from_str` succeeds: every byte is `32..=255`
except `127`, or a tab (`9`).  Stated per character; equivalent, because a
character `≥ 0x80` encodes to UTF-8 bytes that are all `≥ 0x80` and each
such byte is accepted. -/
def headerValueFromStrOk (s : String) : Bool :=
  s.toList.all (fun c => c.toNat == 9 || (32 ≤ c.toNat && c.toNat != 127))

/-- `http::HeaderValue::to_str` succeeds: every byte is visible ASCII
(`32..=126`) or a tab. -/
def headerValueToStrOk (s : String) : Bool :=
  s.toList.all (fun c => c.toNat == 9 || (32 ≤ c.toNat && c.toNat ≤ 126))

/-- The `ClientV2` struct: base URL, headers, shared query parameters. -/
structure ClientV2 where
  url : String
  headers : List (String × String)
  parameters : List (String × String)
deriving DecidableEq, Repr

/-- Outcome of `ClientV2::new`: the Rust function returns `Self` but can
`panic!` through the `unwrap()` on header-value construction. -/
inductive NewResult where
  | ok (c : ClientV2)
  | panicked
deriving DecidableEq, Repr

/-- `ClientV2::new` (lines 48–64): builds the parameter map with `org` and
`bucket`, then inserts the `Authorization` header
`HeaderValue::from_str(format!("Token {}", token)).unwrap()` — the
`unwrap` panics when the header value is not encodable. -/
def ClientV2.new (url token org bucket : String) : NewResult :=
  let parameters := insertEntry (insertEntry [] "org" org) "bucket" bucket
  let headerValue := "Token " ++ token
  if headerValueFromStrOk headerValue then
    NewResult.ok
      { url := url
        headers := insertEntry [] "Authorization" headerValue
        parameters := parameters }
  else
    NewResult.panicked

/-- Outcome of a `&str`-returning accessor that can panic. -/
inductive StrResult where
  | ok (s : String)
  | panicked
deriving DecidableEq, Repr

/-- `ClientV2::get_header_by_name` (lines 71–78): `unwrap`s the header
lookup (panics when absent), then returns the `to_str` value when the
conversion succeeds and `""` otherwise. -/
def ClientV2.get_header_by_name (c : ClientV2) (name : String) : StrResult :=
  match c.headers.lookup name with
  | none => StrResult.panicked
  | some v => if headerValueToStrOk v then StrResult.ok v else StrResult.ok ""

/-- `ClientV2::token` (lines 67–69). -/
def ClientV2.token (c : ClientV2) : StrResult :=
  c.get_header_by_name "Authorization"

/-- `ClientV2::database_url` (lines 81–83). -/
def ClientV2.database_url (c : ClientV2) : String :=
  c.url

/-- A request description handed to `reqwest`: method, URL, headers, query
parameters, optional body. -/
structure Request where
  method : Method
  url : String
  headers : List (String × String)
  params : List (String × String)
  body : Option String
deriving DecidableEq, Repr

/-- Outcome of `ClientV2::ping`. -/
inductive PingResult where
  | error (e : Error)
  | panicked
  | ok (build version : String)
deriving DecidableEq, Repr

/-- Trace of a `ping` call: its result, the requests executed on the
network, and the client after the call (the method takes `&self` and all
mutation happens on local clones, so the client is returned unchanged). -/
structure PingTrace where
  result : PingResult
  sent : List Request
  clientAfter : ClientV2
deriving DecidableEq, Repr

/-- The request `ping` builds (line 89–93): a bare GET to `{url}/ping`
with no headers, no query parameters and no body. -/
def pingRequest (c : ClientV2) : Request :=
  { method := Method.get
    url := c.url ++ "/ping"
    headers := []
    params := []
    body := none }

/-- Response-header handling of `ping` (lines 95–103): a transport error
becomes `ProtocolError`; otherwise the two headers are read with the
panicking `HeaderMap` index operator and a panicking `to_str().unwrap()`. -/
def pingHandle (netResult : Except String (List (String × String))) :
    PingResult :=
  match netResult with
  | Except.error err => PingResult.error (Error.protocolError err)
  | Except.ok headers =>
    match headers.lookup "X-Influxdb-Build" with
    | none => PingResult.panicked
    | some b =>
      if headerValueToStrOk b then
        match headers.lookup "X-Influxdb-Version" with
        | none => PingResult.panicked
        | some v =>
          if headerValueToStrOk v then PingResult.ok b v
          else PingResult.panicked
      else PingResult.panicked

/-- `ClientV2::ping` (lines 88–104), with the network as an oracle from the
request to either a transport-error string or the response headers. -/
def ClientV2.ping (c : ClientV2)
    (net : Request → Except String (List (String × String))) : PingTrace :=
  { result := pingHandle (net (pingRequest c))
    sent := [pingRequest c]
    clientAfter := c }

/-- The query spec collaborator: a variant tag (read, or write with its
declared precision string) and the outcome of `q.build()` rendering. -/
inductive QueryKind where
  | read
  | write (precision : String)
deriving DecidableEq, Repr

/-- Abstract `Query` argument of `ClientV2::query`: its variant and the
result of rendering it to request-ready text. -/
structure QuerySpec where
  kind : QueryKind
  buildResult : Except String String
deriving DecidableEq, Repr

/-- An HTTP response as `query` consumes it: status code, and the body
read as text (`Except` for the UTF-8 decode failure of `res.text()`). -/
structure Response where
  status : Nat
  body : Except String String
deriving DecidableEq, Repr

/-- Trace of a `query` call: result, requests executed on the network, and
the client after the call (unchanged: `&self`, clones for mutation). -/
structure QueryTrace where
  result : Except Error String
  built : Option Request
  sent : List Request
  clientAfter : ClientV2
deriving DecidableEq, Repr

/-- The request `query` builds once rendering succeeded (lines 154–175):
read queries go to `{url}/query` — GET when the rendered text contains
`"SELECT"` or `"SHOW"`, POST otherwise — with the shared headers and
parameters and no body; write queries POST to `{url}/api/v2/write` with
the rendered text as body and a local parameter copy extended with
`precision`. -/
def buildQueryRequest (c : ClientV2) (kind : QueryKind)
    (queryText : String) : Request :=
  match kind with
  | QueryKind.read =>
    let url := c.url ++ "/query"
    if containsSub queryText "SELECT" || containsSub queryText "SHOW" then
      { method := Method.get, url := url, headers := c.headers
        params := c.parameters, body := none }
    else
      { method := Method.post, url := url, headers := c.headers
        params := c.parameters, body := none }
  | QueryKind.write precision =>
    { method := Method.post
      url := c.url ++ "/api/v2/write"
      headers := c.headers
      params := insertEntry c.parameters "precision" precision
      body := some queryText }

/-- Response handling of `query` (lines 189–209): status 401 is
`AuthorizationError`, 403 is `AuthenticationError`; any other status reads
the body (decode failure is `DeserializationError`); a body containing the
substring `"error"` (quotes included) is a `DatabaseError` wrapping the
body, and otherwise the body is the success value. -/
def handleResponse (res : Response) : Except Error String :=
  if res.status == 401 then Except.error Error.authorizationError
  else if res.status == 403 then Except.error Error.authenticationError
  else
    match res.body with
    | Except.error _ =>
      Except.error (Error.deserializationError
        "response could not be converted to UTF-8")
    | Except.ok s =>
      if containsSub s "\"error\"" then
        Except.error (Error.databaseError
          ("influxdb error: \"" ++ s ++ "\""))
      else
        Except.ok s

/-- `ClientV2::query` (lines 144–210).  `reqBuild` is the fallible
`RequestBuilder::build` of `reqwest` (URL-construction failures), `net`
is the transport.  Rendering failure returns `InvalidQueryError` before
any request exists; a builder failure returns `UrlConstructionError`
before any network I/O; a transport failure returns `ConnectionError`;
otherwise the response is handled by `handleResponse`. -/
def ClientV2.query (c : ClientV2) (q : QuerySpec)
    (reqBuild : Request → Except String Request)
    (net : Request → Except String Response) : QueryTrace :=
  match q.buildResult with
  | Except.error err =>
    { result := Except.error (Error.invalidQueryError err)
      built := none, sent := [], clientAfter := c }
  | Except.ok queryText =>
    let req := buildQueryRequest c q.kind queryText
    match reqBuild req with
    | Except.error err =>
      { result := Except.error (Error.urlConstructionError err)
        built := some req, sent := [], clientAfter := c }
    | Except.ok req2 =>
      match net req2 with
      | Except.error err =>
        { result := Except.error (Error.connectionError err)
          built := some req, sent := [req2], clientAfter := c }
      | Except.ok res =>
        { result := handleResponse res
          built := some req, sent := [req2], clientAfter := c }

/-- The client produced by `ClientV2::new (url, token, org, bucket)` when
the token is header-encodable. -/
def newClient (url token org bucket : String) : ClientV2 :=
  { url := url
    headers := insertEntry [] "Authorization" ("Token " ++ token)
    parameters := insertEntry (insertEntry [] "org" org) "bucket" bucket }

/-- Concrete client used to instantiate the verification theorems. -/
def cEx : ClientV2 :=
  newClient "http://localhost:8086" "tok" "org" "bucket"

/-- The constructor never panics — the recoverable-error reading of the
spec: every failure of `new` would be surfaced as an error value rather
than a `panic!`.  (Refuted below: the source `unwrap`s.) -/
def newNeverPanics : Prop :=
  ∀ url token org bucket,
    ClientV2.new url token org bucket ≠ NewResult.panicked

/-- A client built from a header-encodable token whose bytes are not all
visible ASCII (the `é` encodes to two bytes `≥ 0x80`). -/
def cBadToken : ClientV2 :=
  newClient "http://x" "é" "o" "b"

theorem insertEntry_nil (k v : String) : insertEntry [] k v = [(k, v)] := rfl

theorem newClient_parameters (url token org bucket : String) :
    (newClient url token org bucket).parameters =
      [("org", org), ("bucket", bucket)] := rfl

theorem newClient_headers (url token org bucket : String) :
    (newClient url token org bucket).headers =
      [("Authorization", "Token " ++ token)] := rfl

theorem new_ok_iff (url token org bucket : String) :
    ClientV2.new url token org bucket =
      (if headerValueFromStrOk ("Token " ++ token) then
        NewResult.ok (newClient url token org bucket)
      else
        NewResult.panicked) := rfl

theorem new_ok_elim (url token org bucket : String) (c : ClientV2)
    (h : ClientV2.new url token org bucket = NewResult.ok c) :
    c = newClient url token org bucket ∧
      headerValueFromStrOk ("Token " ++ token) = true := by
  rw [new_ok_iff] at h
  by_cases hv : headerValueFromStrOk ("Token " ++ token) = true
  · rw [if_pos hv] at h
    exact ⟨(NewResult.ok.injEq _ _).mp h.symm, hv⟩
  · rw [if_neg hv] at h
    cases h

theorem query_built_of_render (c : ClientV2) (q : QuerySpec)
    (reqBuild : Request → Except String Request)
    (net : Request → Except String Response) (text : String)
    (hq : q.buildResult = Except.ok text) :
    (c.query q reqBuild net).built = some (buildQueryRequest c q.kind text) := by
  unfold ClientV2.query
  rw [hq]
  cases hb : reqBuild (buildQueryRequest c q.kind text) with
  | error err => simp only [hb]
  | ok req2 => cases hn : net req2 <;> simp only [hb, hn]

theorem query_result_net (c : ClientV2) (q : QuerySpec)
    (reqBuild : Request → Except String Request)
    (net : Request → Except String Response) (text : String)
    (req2 : Request) (res : Response)
    (hq : q.buildResult = Except.ok text)
    (hb : reqBuild (buildQueryRequest c q.kind text) = Except.ok req2)
    (hn : net req2 = Except.ok res) :
    (c.query q reqBuild net).result = handleResponse res := by
  unfold ClientV2.query
  rw [hq]
  simp only [hb, hn]

theorem query_clientAfter (c : ClientV2) (q : QuerySpec)
    (reqBuild : Request → Except String Request)
    (net : Request → Except String Response) :
    (c.query q reqBuild net).clientAfter = c := by
  unfold ClientV2.query
  cases hq : q.buildResult with
  | error err => simp only [hq]
  | ok text =>
    cases hb : reqBuild (buildQueryRequest c q.kind text) with
    | error err => simp only [hb]
    | ok req2 => cases hn : net req2 <;> simp only [hb, hn]

/-- Claim C2: a read query is sent to `{base_url}/query`, as a GET when the
rendered text contains `"SELECT"` or `"SHOW"` and as a POST otherwise, with
the shared headers (the auth header) and the shared org/bucket parameters
attached and no request body; with a successful request builder exactly
that request is executed. -/
theorem claim_c2_read_request (c : ClientV2) (q : QuerySpec)
    (reqBuild : Request → Except String Request)
    (net : Request → Except String Response) (text : String)
    (hkind : q.kind = QueryKind.read)
    (hq : q.buildResult = Except.ok text) :
    (c.query q reqBuild net).built = some
      { method :=
          if containsSub text "SELECT" || containsSub text "SHOW" then
            Method.get
          else
            Method.post
        url := c.url ++ "/query"
        headers := c.headers
        params := c.parameters
        body := none } ∧
    (c.query q Except.ok net).sent =
      [{ method :=
          if containsSub text "SELECT" || containsSub text "SHOW" then
            Method.get
          else
            Method.post
         url := c.url ++ "/query"
         headers := c.headers
         params := c.parameters
         body := none }] := by
  have hreq : buildQueryRequest c q.kind text =
      { method :=
          if containsSub text "SELECT" || containsSub text "SHOW" then
            Method.get
          else
            Method.post
        url := c.url ++ "/query"
        headers := c.headers
        params := c.parameters
        body := none } := by
    rw [hkind]
    unfold buildQueryRequest
    by_cases hsel : (containsSub text "SELECT" || containsSub text "SHOW") = true
    · rw [if_pos hsel, if_pos hsel]
    · rw [if_neg hsel, if_neg hsel]
  constructor
  · rw [query_built_of_render c q reqBuild net text hq, hreq]
  · unfold ClientV2.query
    rw [hq]
    cases hn : net (buildQueryRequest c q.kind text) with
    | error e =>
      rw [hreq] at hn
      simp only [hreq, hn]
    | ok res =>
      rw [hreq] at hn
      simp only [hreq, hn]

/-- Claim C3: a write query is sent as a POST to `{base_url}/api/v2/write`
whose body is the rendered query text, with the shared headers (the auth
header) attached and the parameters being the shared map extended with a
`precision` entry equal to the write query's declared precision; with a
successful request builder exactly that request is executed. -/
theorem claim_c3_write_request (c : ClientV2) (q : QuerySpec)
    (reqBuild : Request → Except String Request)
    (net : Request → Except String Response) (text precision : String)
    (hkind : q.kind = QueryKind.write precision)
    (hq : q.buildResult = Except.ok text) :
    (c.query q reqBuild net).built = some
      { method := Method.post
        url := c.url ++ "/api/v2/write"
        headers := c.headers
        params := insertEntry c.parameters "precision" precision
        body := some text } ∧
    (c.query q Except.ok net).sent =
      [{ method := Method.post
         url := c.url ++ "/api/v2/write"
         headers := c.headers
         params := insertEntry c.parameters "precision" precision
         body := some text }] := by
  have hreq : buildQueryRequest c q.kind text =
      { method := Method.post
        url := c.url ++ "/api/v2/write"
        headers := c.headers
        params := insertEntry c.parameters "precision" precision
        body := some text } := by
    rw [hkind]
    rfl
  constructor
  · rw [query_built_of_render c q reqBuild net text hq, hreq]
  · unfold ClientV2.query
    rw [hq]
    cases hn : net (buildQueryRequest c q.kind text) with
    | error e =>
      rw [hreq] at hn
      simp only [hreq, hn]
    | ok res =>
      rw [hreq] at hn
      simp only [hreq, hn]

/-- Claim C2 witness at a concrete SELECT query. -/
theorem claim_c2_witness :
    (cEx.query { kind := QueryKind.read, buildResult := Except.ok "SELECT 1" }
        Except.ok
        (fun _ => Except.ok { status := 200, body := Except.ok "x" })).built =
      some
        { method := Method.get
          url := "http://localhost:8086/query"
          headers := [("Authorization", "Token tok")]
          params := [("org", "org"), ("bucket", "bucket")]
          body := none } := by
  have h := claim_c2_read_request cEx
    { kind := QueryKind.read, buildResult := Except.ok "SELECT 1" }
    Except.ok
    (fun _ => Except.ok { status := 200, body := Except.ok "x" })
    "SELECT 1" rfl rfl
  rw [h.1]
  decide

/-- Claim C3 witness at a concrete write query with precision `ms`. -/
theorem claim_c3_witness :
    (cEx.query { kind := QueryKind.write "ms", buildResult := Except.ok "m f=1" }
        Except.ok
        (fun _ => Except.ok { status := 204, body := Except.ok "" })).built =
      some
        { method := Method.post
          url := "http://localhost:8086/api/v2/write"
          headers := [("Authorization", "Token tok")]
          params := [("org", "org"), ("bucket", "bucket"), ("precision", "ms")]
          body := some "m f=1" } := by
  have h := claim_c3_write_request cEx
    { kind := QueryKind.write "ms", buildResult := Except.ok "m f=1" }
    Except.ok
    (fun _ => Except.ok { status := 204, body := Except.ok "" })
    "m f=1" "ms" rfl rfl
  rw [h.1]
  decide

/-- Claim C6: after construction the shared parameter map holds exactly the
keys `org` and `bucket` (size 2, constructor-supplied values), no `query`
or `ping` call changes the client's shared state, the shared map holds no
`precision` key, and the `precision` entry of a write request lives only in
the per-call copy `insertEntry c.parameters "precision" p`. -/
theorem claim_c6_shared_parameters (url token org bucket : String)
    (c : ClientV2)
    (h : ClientV2.new url token org bucket = NewResult.ok c) :
    c.parameters = [("org", org), ("bucket", bucket)] ∧
    c.parameters.length = 2 ∧
    c.parameters.lookup "org" = some org ∧
    c.parameters.lookup "bucket" = some bucket ∧
    c.parameters.lookup "precision" = none ∧
    (∀ q reqBuild net, (c.query q reqBuild net).clientAfter = c) ∧
    (∀ net, (c.ping net).clientAfter = c) ∧
    (∀ p text, (buildQueryRequest c (QueryKind.write p) text).params =
      insertEntry c.parameters "precision" p) := by
  obtain ⟨hc, -⟩ := new_ok_elim url token org bucket c h
  subst hc
  refine ⟨rfl, rfl, ?_, ?_, ?_, fun q reqBuild net => query_clientAfter _ q reqBuild net,
    fun net => rfl, fun p text => rfl⟩
  · rw [newClient_parameters]; rfl
  · rw [newClient_parameters]; rfl
  · rw [newClient_parameters]; rfl

/-- Claim C6 witness at the concrete example client. -/
theorem claim_c6_witness :
    ClientV2.new "http://localhost:8086" "tok" "org" "bucket" =
      NewResult.ok cEx ∧
    cEx.parameters = [("org", "org"), ("bucket", "bucket")] ∧
    cEx.parameters.length = 2 := by
  have h : ClientV2.new "http://localhost:8086" "tok" "org" "bucket" =
      NewResult.ok cEx := by decide
  have h6 := claim_c6_shared_parameters "http://localhost:8086" "tok" "org"
    "bucket" cEx h
  exact ⟨h, h6.1, h6.2.1⟩

theorem handleResponse_body (res : Response) (s : String)
    (h1 : res.status ≠ 401) (h2 : res.status ≠ 403)
    (hb : res.body = Except.ok s) :
    handleResponse res =
      (if containsSub s "\"error\"" then
        Except.error (Error.databaseError ("influxdb error: \"" ++ s ++ "\""))
      else
        Except.ok s) := by
  have e1 : (res.status == 401) = false := by simp [h1]
  have e2 : (res.status == 403) = false := by simp [h2]
  unfold handleResponse
  simp only [e1, e2, Bool.false_eq_true, if_false, hb]

/-- Claim C1: for a response whose status is neither 401 nor 403 and whose
body decodes to text `s`, `query` fails with
`DatabaseError ("influxdb error: \"" ++ s ++ "\"")` — the error carrying
the full body text — exactly when `s` contains the substring `"error"`
(quotes included), and returns `s` unchanged as the success value
otherwise. -/
theorem claim_c1_body_error_marker (c : ClientV2) (q : QuerySpec)
    (reqBuild : Request → Except String Request)
    (net : Request → Except String Response) (text : String)
    (req2 : Request) (res : Response) (s : String)
    (hq : q.buildResult = Except.ok text)
    (hb : reqBuild (buildQueryRequest c q.kind text) = Except.ok req2)
    (hn : net req2 = Except.ok res)
    (h1 : res.status ≠ 401) (h2 : res.status ≠ 403)
    (hbody : res.body = Except.ok s) :
    (containsSub s "\"error\"" = true →
      (c.query q reqBuild net).result =
        Except.error (Error.databaseError ("influxdb error: \"" ++ s ++ "\""))) ∧
    (containsSub s "\"error\"" = false →
      (c.query q reqBuild net).result = Except.ok s) := by
  rw [query_result_net c q reqBuild net text req2 res hq hb hn,
    handleResponse_body res s h1 h2 hbody]
  constructor <;> intro h <;> simp [h]

/-- Claim C1 witness: a 200 response with an `"error"`-marked body fails
with the database error, one without the marker is returned verbatim. -/
theorem claim_c1_witness :
    (cEx.query { kind := QueryKind.read, buildResult := Except.ok "SELECT 1" }
        Except.ok
        (fun _ => Except.ok
          { status := 200, body := Except.ok "x \"error\" y" })).result =
      Except.error
        (Error.databaseError "influxdb error: \"x \"error\" y\"") := by
  have h := claim_c1_body_error_marker cEx
    { kind := QueryKind.read, buildResult := Except.ok "SELECT 1" }
    Except.ok
    (fun _ => Except.ok { status := 200, body := Except.ok "x \"error\" y" })
    "SELECT 1"
    (buildQueryRequest cEx QueryKind.read "SELECT 1")
    { status := 200, body := Except.ok "x \"error\" y" }
    "x \"error\" y"
    rfl rfl rfl (by decide) (by decide) rfl
  exact h.1 (by decide)

/-- Claim C5: a response with status 401 makes `query` fail with
`AuthorizationError` and one with status 403 with `AuthenticationError`,
and these two error kinds differ from each other and from every other
`Error` variant. -/
theorem claim_c5_auth_status_errors (c : ClientV2) (q : QuerySpec)
    (reqBuild : Request → Except String Request)
    (net : Request → Except String Response) (text : String)
    (req2 : Request) (res : Response)
    (hq : q.buildResult = Except.ok text)
    (hb : reqBuild (buildQueryRequest c q.kind text) = Except.ok req2)
    (hn : net req2 = Except.ok res) :
    (res.status = 401 →
      (c.query q reqBuild net).result =
        Except.error Error.authorizationError) ∧
    (res.status = 403 →
      (c.query q reqBuild net).result =
        Except.error Error.authenticationError) ∧
    Error.authorizationError ≠ Error.authenticationError ∧
    (∀ s : String,
      Error.authorizationError ≠ Error.invalidQueryError s ∧
      Error.authorizationError ≠ Error.urlConstructionError s ∧
      Error.authorizationError ≠ Error.connectionError s ∧
      Error.authorizationError ≠ Error.deserializationError s ∧
      Error.authorizationError ≠ Error.databaseError s ∧
      Error.authorizationError ≠ Error.protocolError s ∧
      Error.authenticationError ≠ Error.invalidQueryError s ∧
      Error.authenticationError ≠ Error.urlConstructionError s ∧
      Error.authenticationError ≠ Error.connectionError s ∧
      Error.authenticationError ≠ Error.deserializationError s ∧
      Error.authenticationError ≠ Error.databaseError s ∧
      Error.authenticationError ≠ Error.protocolError s) := by
  rw [query_result_net c q reqBuild net text req2 res hq hb hn]
  refine ⟨?_, ?_, by simp, fun s => ?_⟩
  · intro h
    unfold handleResponse
    simp [h]
  · intro h
    unfold handleResponse
    simp [h]
  · refine ⟨?_, ?_, ?_, ?_, ?_, ?_, ?_, ?_, ?_, ?_, ?_, ?_⟩ <;> simp

/-- Claim C5 witness at a concrete 401 response. -/
theorem claim_c5_witness :
    (cEx.query { kind := QueryKind.read, buildResult := Except.ok "SELECT 1" }
        Except.ok
        (fun _ => Except.ok { status := 401, body := Except.ok "" })).result =
      Except.error Error.authorizationError := by
  have h := claim_c5_auth_status_errors cEx
    { kind := QueryKind.read, buildResult := Except.ok "SELECT 1" }
    Except.ok
    (fun _ => Except.ok { status := 401, body := Except.ok "" })
    "SELECT 1"
    (buildQueryRequest cEx QueryKind.read "SELECT 1")
    { status := 401, body := Except.ok "" }
    rfl rfl rfl
  exact h.1 rfl

/-- Claim C10: only 401 and 403 fail on status alone — for every other
status (500, 404, …) `query` reads the body and succeeds with it whenever
it decodes to text free of the `"error"` marker. -/
theorem claim_c10_non_auth_status (c : ClientV2) (q : QuerySpec)
    (reqBuild : Request → Except String Request)
    (net : Request → Except String Response) (text : String)
    (req2 : Request) (res : Response) (s : String)
    (hq : q.buildResult = Except.ok text)
    (hb : reqBuild (buildQueryRequest c q.kind text) = Except.ok req2)
    (hn : net req2 = Except.ok res)
    (h1 : res.status ≠ 401) (h2 : res.status ≠ 403)
    (hbody : res.body = Except.ok s)
    (hm : containsSub s "\"error\"" = false) :
    (c.query q reqBuild net).result = Except.ok s := by
  rw [query_result_net c q reqBuild net text req2 res hq hb hn,
    handleResponse_body res s h1 h2 hbody]
  simp [hm]

/-- Claim C10 witness: a 500 response with a clean body still succeeds. -/
theorem claim_c10_witness :
    (cEx.query { kind := QueryKind.read, buildResult := Except.ok "SELECT 1" }
        Except.ok
        (fun _ => Except.ok
          { status := 500, body := Except.ok "hello" })).result =
      Except.ok "hello" := by
  exact claim_c10_non_auth_status cEx
    { kind := QueryKind.read, buildResult := Except.ok "SELECT 1" }
    Except.ok
    (fun _ => Except.ok { status := 500, body := Except.ok "hello" })
    "SELECT 1"
    (buildQueryRequest cEx QueryKind.read "SELECT 1")
    { status := 500, body := Except.ok "hello" }
    "hello"
    rfl rfl rfl (by decide) (by decide) rfl (by decide)

/-- Claim C7: a rendering failure yields `InvalidQueryError` with nothing
sent on the network; a request-builder failure after successful rendering
yields `UrlConstructionError`, still with nothing sent; only when both
steps succeed is the request executed, and a transport failure then yields
`ConnectionError`; the three error kinds are pairwise distinct. -/
theorem claim_c7_error_staging (c : ClientV2) (q : QuerySpec)
    (reqBuild : Request → Except String Request)
    (net : Request → Except String Response) :
    (∀ err, q.buildResult = Except.error err →
      (c.query q reqBuild net).result =
        Except.error (Error.invalidQueryError err) ∧
      (c.query q reqBuild net).sent = []) ∧
    (∀ text err, q.buildResult = Except.ok text →
      reqBuild (buildQueryRequest c q.kind text) = Except.error err →
      (c.query q reqBuild net).result =
        Except.error (Error.urlConstructionError err) ∧
      (c.query q reqBuild net).sent = []) ∧
    (∀ text req2 err, q.buildResult = Except.ok text →
      reqBuild (buildQueryRequest c q.kind text) = Except.ok req2 →
      net req2 = Except.error err →
      (c.query q reqBuild net).result =
        Except.error (Error.connectionError err) ∧
      (c.query q reqBuild net).sent = [req2]) ∧
    (∀ s t : String,
      Error.invalidQueryError s ≠ Error.urlConstructionError t ∧
      Error.urlConstructionError s ≠ Error.connectionError t ∧
      Error.invalidQueryError s ≠ Error.connectionError t) := by
  refine ⟨?_, ?_, ?_, fun s t => by refine ⟨?_, ?_, ?_⟩ <;> simp⟩
  · intro err hq
    unfold ClientV2.query
    rw [hq]
    exact ⟨rfl, rfl⟩
  · intro text err hq hb
    unfold ClientV2.query
    rw [hq]
    simp only [hb]
    exact ⟨trivial, trivial⟩
  · intro text req2 err hq hb hn
    unfold ClientV2.query
    rw [hq]
    simp only [hb, hn]
    exact ⟨trivial, trivial⟩

/-- Claim C7 witness: a failing render returns the invalid-query error and
sends nothing. -/
theorem claim_c7_witness :
    (cEx.query { kind := QueryKind.read, buildResult := Except.error "bad" }
        Except.ok
        (fun _ => Except.ok { status := 200, body := Except.ok "" })).result =
      Except.error (Error.invalidQueryError "bad") ∧
    (cEx.query { kind := QueryKind.read, buildResult := Except.error "bad" }
        Except.ok
        (fun _ => Except.ok { status := 200, body := Except.ok "" })).sent =
      [] := by
  exact (claim_c7_error_staging cEx
    { kind := QueryKind.read, buildResult := Except.error "bad" }
    Except.ok
    (fun _ => Except.ok { status := 200, body := Except.ok "" })).1 "bad" rfl

theorem pingHandle_ok_no_error (hs : List (String × String)) (e : Error) :
    pingHandle (Except.ok hs) ≠ PingResult.error e := by
  unfold pingHandle
  cases h1 : List.lookup "X-Influxdb-Build" hs with
  | none => simp [h1]
  | some b =>
    cases h2 : List.lookup "X-Influxdb-Version" hs with
    | none =>
      by_cases hb : headerValueToStrOk b = true <;> simp [h1, h2, hb]
    | some v =>
      by_cases hb : headerValueToStrOk b = true <;>
        by_cases hv : headerValueToStrOk v = true <;> simp [h1, h2, hb, hv]

/-- Claim C8: `ping` executes exactly one GET to `{base_url}/ping` with no
headers attached; it returns an error — the protocol error — if and only
if the network request itself fails, and on a received response carrying
the `X-Influxdb-Build` and `X-Influxdb-Version` headers it returns their
string values (an absent header is a panic, never a returned error). -/
theorem claim_c8_ping (c : ClientV2)
    (net : Request → Except String (List (String × String))) :
    (c.ping net).sent =
      [{ method := Method.get
         url := c.url ++ "/ping"
         headers := []
         params := []
         body := none }] ∧
    (∀ err, net (pingRequest c) = Except.error err →
      (c.ping net).result = PingResult.error (Error.protocolError err)) ∧
    (∀ hs, net (pingRequest c) = Except.ok hs →
      ∀ e, (c.ping net).result ≠ PingResult.error e) ∧
    (∀ hs b v, net (pingRequest c) = Except.ok hs →
      hs.lookup "X-Influxdb-Build" = some b →
      headerValueToStrOk b = true →
      hs.lookup "X-Influxdb-Version" = some v →
      headerValueToStrOk v = true →
      (c.ping net).result = PingResult.ok b v) ∧
    ((∃ e, (c.ping net).result = PingResult.error e) ↔
      (∃ err, net (pingRequest c) = Except.error err)) := by
  have hres : (c.ping net).result = pingHandle (net (pingRequest c)) := rfl
  refine ⟨rfl, ?_, ?_, ?_, ?_⟩
  · intro err h
    rw [hres, h]
    rfl
  · intro hs h e
    rw [hres, h]
    exact pingHandle_ok_no_error hs e
  · intro hs b v h hlb htb hlv htv
    rw [hres, h]
    unfold pingHandle
    simp only [hlb, htb, hlv, htv, if_true]
  · constructor
    · rintro ⟨e, he⟩
      rw [hres] at he
      cases hnet : net (pingRequest c) with
      | error err => exact ⟨err, rfl⟩
      | ok hs =>
        rw [hnet] at he
        exact absurd he (pingHandle_ok_no_error hs e)
    · rintro ⟨err, herr⟩
      rw [hres, herr]
      exact ⟨Error.protocolError err, rfl⟩

/-- Claim C8 witness: a concrete response carrying both headers is
returned, and a concrete transport failure is a protocol error. -/
theorem claim_c8_witness :
    (cEx.ping (fun _ => Except.ok
        [("X-Influxdb-Build", "OSS"), ("X-Influxdb-Version", "1.8")])).result =
      PingResult.ok "OSS" "1.8" ∧
    (cEx.ping (fun _ => Except.error "refused")).result =
      PingResult.error (Error.protocolError "refused") := by
  constructor
  · exact (claim_c8_ping cEx (fun _ => Except.ok
      [("X-Influxdb-Build", "OSS"), ("X-Influxdb-Version", "1.8")])).2.2.2.1
      [("X-Influxdb-Build", "OSS"), ("X-Influxdb-Version", "1.8")]
      "OSS" "1.8" rfl (by decide) (by decide) (by decide) (by decide)
  · exact (claim_c8_ping cEx (fun _ => Except.error "refused")).2.1
      "refused" rfl

/-- Claim C4 counterexample: the claim says a non-encodable token is
surfaced as a recoverable constructor error, never a panic; but the
source `unwrap`s, so `new` with an embedded newline panics. -/
theorem claim_c4_counterexample : ¬ newNeverPanics := by
  intro h
  exact h "http://localhost:8086" "bad\ntoken" "org" "bucket" (by decide)

/-- Claim C4 (amended): `new` panics — it does not return a recoverable
error — exactly when `"Token " ++ token` is not header-encodable, and for
every header-encodable token it succeeds with the expected client. -/
theorem claim_c4_new_outcomes (url token org bucket : String) :
    (headerValueFromStrOk ("Token " ++ token) = true →
      ClientV2.new url token org bucket =
        NewResult.ok (newClient url token org bucket)) ∧
    (headerValueFromStrOk ("Token " ++ token) = false →
      ClientV2.new url token org bucket = NewResult.panicked) := by
  constructor <;> intro h <;> rw [new_ok_iff] <;> simp [h]

/-- Claim C4 witness: a plain token constructs the expected client. -/
theorem claim_c4_witness :
    headerValueFromStrOk ("Token " ++ "tok") = true ∧
    ClientV2.new "http://localhost:8086" "tok" "org" "bucket" =
      NewResult.ok cEx :=
  ⟨by decide,
    (claim_c4_new_outcomes "http://localhost:8086" "tok" "org" "bucket").1
      (by decide)⟩

/-- Claim C9 counterexample: `"é"` is header-encodable (its UTF-8 bytes
are `≥ 0x80`, all accepted by `HeaderValue::from_str`), so `new` succeeds;
but `HeaderValue::to_str` rejects non-ASCII bytes, so `token()` returns
`""` instead of `"Token é"`. -/
theorem claim_c9_counterexample :
    ClientV2.new "http://x" "é" "o" "b" = NewResult.ok cBadToken ∧
    cBadToken.token = StrResult.ok "" ∧
    StrResult.ok "" ≠ StrResult.ok ("Token " ++ "é") := by
  refine ⟨by decide, by decide, by decide⟩

/-- Claim C9 (amended): for a client built by `new`, `database_url()` is
exactly the constructor URL; `token()` is `"Token " ++ token` when the
stored header value is entirely visible ASCII or tab, and `""` for any
other header-encodable token. -/
theorem claim_c9_accessors (url token org bucket : String) (c : ClientV2)
    (h : ClientV2.new url token org bucket = NewResult.ok c) :
    c.database_url = url ∧
    (headerValueToStrOk ("Token " ++ token) = true →
      c.token = StrResult.ok ("Token " ++ token)) ∧
    (headerValueToStrOk ("Token " ++ token) = false →
      c.token = StrResult.ok "") := by
  obtain ⟨hc, -⟩ := new_ok_elim url token org bucket c h
  subst hc
  have hl : List.lookup "Authorization"
      [("Authorization", "Token " ++ token)] = some ("Token " ++ token) := rfl
  refine ⟨rfl, ?_, ?_⟩
  · intro hv
    unfold ClientV2.token ClientV2.get_header_by_name
    rw [newClient_headers, hl]
    simp only [hv, if_true]
  · intro hv
    unfold ClientV2.token ClientV2.get_header_by_name
    rw [newClient_headers, hl]
    simp only [hv, Bool.false_eq_true, if_false]

/-- Claim C9 witness: the example client reports its URL and prefixed
token. -/
theorem claim_c9_witness :
    cEx.database_url = "http://localhost:8086" ∧
    cEx.token = StrResult.ok ("Token " ++ "tok") := by
  have h := claim_c9_accessors "http://localhost:8086" "tok" "org" "bucket"
    cEx (by decide)
  exact ⟨h.1, h.2.1 (by decide)⟩

end InfluxV2
